import Mathlib

/-!
Shallow embedding of `src/diart/models.py`: the adapter layer wrapping
pyannote segmentation and embedding models.  Python exceptions are embedded
as `Except` errors; the module-level `_has_pyannote` flag and the external
`pyannote.get_model` resolver are gathered into a `Hub` environment record;
the class hierarchy (abstract base raising `NotImplementedError` versus the
inner classes created by `from_pyannote`) is embedded as an inductive with
one constructor per concrete variant and dispatch functions that match the
method bodies.
-/

/-- Numeric tensor (`torch.Tensor`), reduced to its observable content:
a shape plus flat data.  The adapter layer never inspects either field. -/
structure Tensor where
  shape : List Nat
  data : List Int
  deriving DecidableEq, Repr

/-- Failure modes of the external hub resolution (`pyannote.get_model`):
network failure, unknown identifier, authentication rejection. -/
inductive HubError
  | networkFailure
  | unknownIdentifier
  | authRejection
  deriving DecidableEq, Repr

/-- Errors raised by the wrapped pyannote model during a forward pass,
e.g. a tensor-dimension incompatibility (`ShapeMismatch`). -/
inductive InferenceError
  | ShapeMismatch
  | runtime (msg : String)
  deriving DecidableEq, Repr

/-- Error universe of the adapter layer.  `MissingDependency` embeds the
`AssertionError` from `assert _has_pyannote`; `HubResolution` embeds an
exception escaping `pyannote.get_model`; `UnsupportedOperation` embeds the
`NotImplementedError` raised by the abstract base methods; `Inference`
embeds an exception escaping the wrapped model's forward pass. -/
inductive ModelError
  | MissingDependency
  | HubResolution (e : HubError)
  | UnsupportedOperation
  | Inference (e : InferenceError)
  deriving DecidableEq, Repr

/-- The `use_auth_token` argument: Python `None`, a boolean flag, or a
string token.  The adapter layer treats it opaquely. -/
inductive UseAuthToken
  | none
  | flag (b : Bool)
  | token (s : String)
  deriving DecidableEq, Repr

/-- Attribute `model.audio` of a resolved pyannote model: carries the
audio sample-rate metadata field. -/
structure ModelAudio where
  sample_rate : Nat

/-- Attribute `model.specifications` of a resolved pyannote model: carries
the training-specification duration metadata field. -/
structure ModelSpecifications where
  duration : Rat

/-- A resolved pyannote model handle, as returned by `pyannote.get_model`.
`forward` embeds calling the model with a single waveform argument (the
segmentation use); `forwardWeighted` embeds calling it with a waveform and
the `weights` keyword argument (the embedding use). -/
structure PyannoteModel where
  audio : ModelAudio
  specifications : ModelSpecifications
  forward : Tensor → Except InferenceError Tensor
  forwardWeighted : Tensor → Option Tensor → Except InferenceError Tensor

/-- The runtime environment of `models.py`: the module-level
`_has_pyannote` flag set by the import probe, and the external resolver
`pyannote.get_model` mapping an identifier and auth token to a model or a
hub failure. -/
structure Hub where
  has_pyannote : Bool
  get_model : String → UseAuthToken → Except HubError PyannoteModel

/-- The `SegmentationModel` class hierarchy: `base` is an instance of the
abstract class itself (a concrete variant defining none of the three
capabilities); `PyannoteSegmentationModel` is the inner class built by
`from_pyannote`, holding the resolved model in its `self.model` slot. -/
inductive SegmentationModel
  | base
  | PyannoteSegmentationModel (model : PyannoteModel)

/-- The `EmbeddingModel` class hierarchy, analogous to
`SegmentationModel`. -/
inductive EmbeddingModel
  | base
  | PyannoteEmbeddingModel (model : PyannoteModel)

/-- Method `get_sample_rate`: the abstract base raises
`NotImplementedError`; the pyannote variant returns
`self.model.audio.sample_rate`. -/
def SegmentationModel.get_sample_rate : SegmentationModel → Except ModelError Nat
  | .base => Except.error ModelError.UnsupportedOperation
  | .PyannoteSegmentationModel m => Except.ok m.audio.sample_rate

/-- Method `get_duration`: the abstract base raises `NotImplementedError`;
the pyannote variant returns `self.model.specifications.duration`. -/
def SegmentationModel.get_duration : SegmentationModel → Except ModelError Rat
  | .base => Except.error ModelError.UnsupportedOperation
  | .PyannoteSegmentationModel m => Except.ok m.specifications.duration

/-- Method `__call__` (forward pass): the abstract base raises
`NotImplementedError`; the pyannote variant returns `self.model(waveform)`,
any exception from the wrapped model propagating to the caller (embedded by
the coproduct injection `ModelError.Inference`). -/
def SegmentationModel.call : SegmentationModel → Tensor → Except ModelError Tensor
  | .base, _ => Except.error ModelError.UnsupportedOperation
  | .PyannoteSegmentationModel m, waveform =>
      Except.mapError ModelError.Inference (m.forward waveform)

/-- Static method `SegmentationModel.from_pyannote`: first
`assert _has_pyannote` (failure embedded as `MissingDependency`), then the
inner-class constructor stores `pyannote.get_model(model, use_auth_token)`
in `self.model`; an exception from the resolver propagates and no adapter
is returned. -/
def SegmentationModel.from_pyannote (hub : Hub) (model : String)
    (use_auth_token : UseAuthToken) : Except ModelError SegmentationModel :=
  if hub.has_pyannote then
    match hub.get_model model use_auth_token with
    | Except.ok m => Except.ok (SegmentationModel.PyannoteSegmentationModel m)
    | Except.error e => Except.error (ModelError.HubResolution e)
  else
    Except.error ModelError.MissingDependency

/-- Method `__call__` of `EmbeddingModel` (forward pass with optional
temporal weights): the abstract base raises `NotImplementedError`; the
pyannote variant returns `self.model(waveform, weights=weights)`. -/
def EmbeddingModel.call : EmbeddingModel → Tensor → Option Tensor → Except ModelError Tensor
  | .base, _, _ => Except.error ModelError.UnsupportedOperation
  | .PyannoteEmbeddingModel m, waveform, weights =>
      Except.mapError ModelError.Inference (m.forwardWeighted waveform weights)

/-- Invocation of `__call__` with the `weights` parameter omitted: Python
fills in the declared default value `None`. -/
def EmbeddingModel.callNoWeights (e : EmbeddingModel) (waveform : Tensor) :
    Except ModelError Tensor :=
  e.call waveform Option.none

/-- Static method `EmbeddingModel.from_pyannote`, same structure as the
segmentation constructor. -/
def EmbeddingModel.from_pyannote (hub : Hub) (model : String)
    (use_auth_token : UseAuthToken) : Except ModelError EmbeddingModel :=
  if hub.has_pyannote then
    match hub.get_model model use_auth_token with
    | Except.ok m => Except.ok (EmbeddingModel.PyannoteEmbeddingModel m)
    | Except.error e => Except.error (ModelError.HubResolution e)
  else
    Except.error ModelError.MissingDependency

/-- State-passing form of `get_sample_rate`: a Python method receives the
mutable receiver, so the embedding returns the post-call receiver next to
the result.  The method body `return self.model.audio.sample_rate`
performs no assignment, so the post-call receiver is the pre-call one. -/
def SegmentationModel.get_sample_rateS (s : SegmentationModel) :
    Except ModelError Nat × SegmentationModel :=
  (s.get_sample_rate, s)

/-- State-passing form of `get_duration`; the body performs no
assignment. -/
def SegmentationModel.get_durationS (s : SegmentationModel) :
    Except ModelError Rat × SegmentationModel :=
  (s.get_duration, s)

/-- State-passing form of the segmentation forward call: returns the
result, the post-call receiver and the post-call input tensor.  The body
`return self.model(waveform)` assigns neither `self` attributes nor the
input. -/
def SegmentationModel.callS (s : SegmentationModel) (waveform : Tensor) :
    Except ModelError Tensor × SegmentationModel × Tensor :=
  (s.call waveform, s, waveform)

/-- State-passing form of the embedding forward call: returns the result,
the post-call receiver, the post-call waveform and the post-call weights.
The body performs no assignment. -/
def EmbeddingModel.callS (e : EmbeddingModel) (waveform : Tensor)
    (weights : Option Tensor) :
    Except ModelError Tensor × EmbeddingModel × Tensor × Option Tensor :=
  (e.call waveform weights, e, waveform, weights)

/-- Concrete fixture tensor. -/
def tensor0 : Tensor := ⟨[1, 1, 4], [0, 1, 2, 3]⟩

/-- Concrete fixture: a resolved pyannote model whose forward passes
succeed, with sample rate 16000 and duration 5. -/
def okModel : PyannoteModel where
  audio := ⟨16000⟩
  specifications := ⟨5⟩
  forward := fun t => Except.ok t
  forwardWeighted := fun t _ => Except.ok t

/-- Concrete fixture: a resolved pyannote model whose forward passes fail
with `ShapeMismatch`. -/
def mismatchModel : PyannoteModel where
  audio := ⟨16000⟩
  specifications := ⟨5⟩
  forward := fun _ => Except.error InferenceError.ShapeMismatch
  forwardWeighted := fun _ _ => Except.error InferenceError.ShapeMismatch

/-- Concrete fixture: environment with pyannote installed and a resolver
that always succeeds with `okModel`. -/
def goodHub : Hub := ⟨true, fun _ _ => Except.ok okModel⟩

/-- Concrete fixture: environment with pyannote installed and a resolver
that always fails with an unknown-identifier error. -/
def failHub : Hub := ⟨true, fun _ _ => Except.error HubError.unknownIdentifier⟩

/-- Concrete fixture: environment without pyannote, resolver succeeding. -/
def noPyannoteHub : Hub := ⟨false, fun _ _ => Except.ok okModel⟩

/-- Concrete fixture: environment without pyannote, resolver failing. -/
def noPyannoteHub2 : Hub := ⟨false, fun _ _ => Except.error HubError.networkFailure⟩

/-- Claim C1: every adapter returned by `SegmentationModel.from_pyannote`
wraps the model resolved by the hub, and its `get_sample_rate` and
`get_duration` return exactly that model's `audio.sample_rate` and
`specifications.duration` metadata fields. -/
theorem seg_from_pyannote_derives_metadata (hub : Hub) (id : String)
    (tok : UseAuthToken) (a : SegmentationModel)
    (h : SegmentationModel.from_pyannote hub id tok = Except.ok a) :
    ∃ m : PyannoteModel, hub.get_model id tok = Except.ok m ∧
      a = SegmentationModel.PyannoteSegmentationModel m ∧
      a.get_sample_rate = Except.ok m.audio.sample_rate ∧
      a.get_duration = Except.ok m.specifications.duration := by
  unfold SegmentationModel.from_pyannote at h
  rcases hp : hub.has_pyannote with _ | _ <;> rw [hp] at h <;> simp at h
  rcases hm : hub.get_model id tok with e | m <;> rw [hm] at h <;> simp at h
  subst h
  exact ⟨m, rfl, rfl, rfl, rfl⟩

/-- Witness for C1 at the concrete environment `goodHub`. -/
theorem seg_from_pyannote_derives_metadata_witness :
    ∃ m : PyannoteModel,
      goodHub.get_model "pyannote/segmentation" UseAuthToken.none = Except.ok m ∧
      SegmentationModel.PyannoteSegmentationModel okModel =
        SegmentationModel.PyannoteSegmentationModel m ∧
      (SegmentationModel.PyannoteSegmentationModel okModel).get_sample_rate =
        Except.ok m.audio.sample_rate ∧
      (SegmentationModel.PyannoteSegmentationModel okModel).get_duration =
        Except.ok m.specifications.duration :=
  seg_from_pyannote_derives_metadata goodHub "pyannote/segmentation"
    UseAuthToken.none (SegmentationModel.PyannoteSegmentationModel okModel) rfl

/-- Claim C2: when pyannote is absent, both named constructors fail with
`MissingDependency`, the failure happens at construction (no adapter is
ever produced for a forward call to be needed), and the outcome is
independent of the hub resolver, so no hub lookup is attempted. -/
theorem from_pyannote_missing_dependency_eager (hub hub2 : Hub) (id : String)
    (tok : UseAuthToken) (h : hub.has_pyannote = false)
    (h2 : hub2.has_pyannote = false) :
    SegmentationModel.from_pyannote hub id tok =
      Except.error ModelError.MissingDependency ∧
    EmbeddingModel.from_pyannote hub id tok =
      Except.error ModelError.MissingDependency ∧
    SegmentationModel.from_pyannote hub id tok =
      SegmentationModel.from_pyannote hub2 id tok ∧
    EmbeddingModel.from_pyannote hub id tok =
      EmbeddingModel.from_pyannote hub2 id tok := by
  unfold SegmentationModel.from_pyannote EmbeddingModel.from_pyannote
  rw [h, h2]
  simp

/-- Witness for C2 at the concrete environments `noPyannoteHub` and
`noPyannoteHub2`, whose resolvers behave differently. -/
theorem from_pyannote_missing_dependency_eager_witness :
    SegmentationModel.from_pyannote noPyannoteHub "m" (UseAuthToken.flag true) =
      Except.error ModelError.MissingDependency ∧
    EmbeddingModel.from_pyannote noPyannoteHub "m" (UseAuthToken.flag true) =
      Except.error ModelError.MissingDependency ∧
    SegmentationModel.from_pyannote noPyannoteHub "m" (UseAuthToken.flag true) =
      SegmentationModel.from_pyannote noPyannoteHub2 "m" (UseAuthToken.flag true) ∧
    EmbeddingModel.from_pyannote noPyannoteHub "m" (UseAuthToken.flag true) =
      EmbeddingModel.from_pyannote noPyannoteHub2 "m" (UseAuthToken.flag true) :=
  from_pyannote_missing_dependency_eager noPyannoteHub noPyannoteHub2 "m"
    (UseAuthToken.flag true) rfl rfl

/-- Claim C3: on the abstract base (the concrete variant defining none of
the capabilities), `get_sample_rate`, `get_duration` and the forward call
of `SegmentationModel`, and the forward call of `EmbeddingModel`, all fail
with `UnsupportedOperation` on every input. -/
theorem abstract_base_unsupported (w : Tensor) (o : Option Tensor) :
    SegmentationModel.base.get_sample_rate =
      Except.error ModelError.UnsupportedOperation ∧
    SegmentationModel.base.get_duration =
      Except.error ModelError.UnsupportedOperation ∧
    SegmentationModel.base.call w =
      Except.error ModelError.UnsupportedOperation ∧
    EmbeddingModel.base.call w o =
      Except.error ModelError.UnsupportedOperation :=
  ⟨rfl, rfl, rfl, rfl⟩

/-- Claim C4: when the hub resolution fails, both named constructors fail
with a `HubResolution` error carrying the hub failure, and neither returns
any adapter. -/
theorem from_pyannote_hub_resolution_failure (hub : Hub) (id : String)
    (tok : UseAuthToken) (e : HubError) (a : SegmentationModel)
    (a2 : EmbeddingModel) (hp : hub.has_pyannote = true)
    (h : hub.get_model id tok = Except.error e) :
    SegmentationModel.from_pyannote hub id tok =
      Except.error (ModelError.HubResolution e) ∧
    EmbeddingModel.from_pyannote hub id tok =
      Except.error (ModelError.HubResolution e) ∧
    SegmentationModel.from_pyannote hub id tok ≠ Except.ok a ∧
    EmbeddingModel.from_pyannote hub id tok ≠ Except.ok a2 := by
  unfold SegmentationModel.from_pyannote EmbeddingModel.from_pyannote
  rw [hp, h]
  simp

/-- Witness for C4 at the concrete environment `failHub`. -/
theorem from_pyannote_hub_resolution_failure_witness :
    SegmentationModel.from_pyannote failHub "bad/model" UseAuthToken.none =
      Except.error (ModelError.HubResolution HubError.unknownIdentifier) ∧
    EmbeddingModel.from_pyannote failHub "bad/model" UseAuthToken.none =
      Except.error (ModelError.HubResolution HubError.unknownIdentifier) ∧
    SegmentationModel.from_pyannote failHub "bad/model" UseAuthToken.none ≠
      Except.ok SegmentationModel.base ∧
    EmbeddingModel.from_pyannote failHub "bad/model" UseAuthToken.none ≠
      Except.ok EmbeddingModel.base :=
  from_pyannote_hub_resolution_failure failHub "bad/model" UseAuthToken.none
    HubError.unknownIdentifier SegmentationModel.base EmbeddingModel.base rfl rfl

/-- Claim C5: two successive forward calls of a segmentation adapter on
the same input, the second performed on the receiver and input as they
stand after the first call, return identical results. -/
theorem seg_call_deterministic (s : SegmentationModel) (w : Tensor) :
    (s.callS w).1 = (((s.callS w).2.1).callS ((s.callS w).2.2)).1 :=
  rfl

/-- Claim C6: no operation of either adapter reassigns the receiver (in
particular the wrapped model reference stored at construction) or mutates
its input tensors: every state-passing operation returns its receiver and
inputs unchanged. -/
theorem adapters_immutable (s : SegmentationModel) (e : EmbeddingModel)
    (w : Tensor) (o : Option Tensor) :
    (s.get_sample_rateS).2 = s ∧
    (s.get_durationS).2 = s ∧
    (s.callS w).2.1 = s ∧
    (s.callS w).2.2 = w ∧
    (e.callS w o).2.1 = e ∧
    (e.callS w o).2.2.1 = w ∧
    (e.callS w o).2.2.2 = o :=
  ⟨rfl, rfl, rfl, rfl, rfl, rfl, rfl⟩

/-- Claim C7: any error raised by the wrapped model's forward pass (in
particular `ShapeMismatch`) surfaces to the caller of the adapter's
forward call unmodified; in general the adapter's forward result is
exactly the wrapped model's result, with no retry or recovery. -/
theorem forward_error_propagation (m : PyannoteModel) (w : Tensor)
    (o : Option Tensor) (e1 e2 : InferenceError)
    (h1 : m.forward w = Except.error e1)
    (h2 : m.forwardWeighted w o = Except.error e2) :
    (SegmentationModel.PyannoteSegmentationModel m).call w =
      Except.error (ModelError.Inference e1) ∧
    (EmbeddingModel.PyannoteEmbeddingModel m).call w o =
      Except.error (ModelError.Inference e2) ∧
    (SegmentationModel.PyannoteSegmentationModel m).call w =
      Except.mapError ModelError.Inference (m.forward w) ∧
    (EmbeddingModel.PyannoteEmbeddingModel m).call w o =
      Except.mapError ModelError.Inference (m.forwardWeighted w o) := by
  refine ⟨?_, ?_, rfl, rfl⟩
  · show Except.mapError ModelError.Inference (m.forward w) = _
    rw [h1]
    rfl
  · show Except.mapError ModelError.Inference (m.forwardWeighted w o) = _
    rw [h2]
    rfl

/-- Witness for C7 at the concrete model `mismatchModel`, whose forward
passes fail with `ShapeMismatch`. -/
theorem forward_error_propagation_witness :
    (SegmentationModel.PyannoteSegmentationModel mismatchModel).call tensor0 =
      Except.error (ModelError.Inference InferenceError.ShapeMismatch) ∧
    (EmbeddingModel.PyannoteEmbeddingModel mismatchModel).call tensor0 Option.none =
      Except.error (ModelError.Inference InferenceError.ShapeMismatch) ∧
    (SegmentationModel.PyannoteSegmentationModel mismatchModel).call tensor0 =
      Except.mapError ModelError.Inference (mismatchModel.forward tensor0) ∧
    (EmbeddingModel.PyannoteEmbeddingModel mismatchModel).call tensor0 Option.none =
      Except.mapError ModelError.Inference
        (mismatchModel.forwardWeighted tensor0 Option.none) :=
  forward_error_propagation mismatchModel tensor0 Option.none
    InferenceError.ShapeMismatch InferenceError.ShapeMismatch rfl rfl

/-- Claim C8: both named constructors hand the authentication credential
(of any of the three shapes) verbatim to the hub resolver and use it
nowhere else: for every token the whole constructor result factors through
the single resolver call `hub.get_model id tok`. -/
theorem auth_token_opaque_passthrough (hub : Hub) (id : String)
    (tok : UseAuthToken) (hp : hub.has_pyannote = true) :
    SegmentationModel.from_pyannote hub id tok =
      Except.mapError ModelError.HubResolution
        (Except.map SegmentationModel.PyannoteSegmentationModel
          (hub.get_model id tok)) ∧
    EmbeddingModel.from_pyannote hub id tok =
      Except.mapError ModelError.HubResolution
        (Except.map EmbeddingModel.PyannoteEmbeddingModel
          (hub.get_model id tok)) := by
  unfold SegmentationModel.from_pyannote EmbeddingModel.from_pyannote
  rw [hp]
  rcases hm : hub.get_model id tok with e | m <;> simp [Except.map, Except.mapError]

/-- Witness for C8 at the concrete environment `goodHub` with a string
token. -/
theorem auth_token_opaque_passthrough_witness :
    SegmentationModel.from_pyannote goodHub "m" (UseAuthToken.token "secret") =
      Except.mapError ModelError.HubResolution
        (Except.map SegmentationModel.PyannoteSegmentationModel
          (goodHub.get_model "m" (UseAuthToken.token "secret"))) ∧
    EmbeddingModel.from_pyannote goodHub "m" (UseAuthToken.token "secret") =
      Except.mapError ModelError.HubResolution
        (Except.map EmbeddingModel.PyannoteEmbeddingModel
          (goodHub.get_model "m" (UseAuthToken.token "secret"))) :=
  auth_token_opaque_passthrough goodHub "m" (UseAuthToken.token "secret") rfl

/-- Claim C9: invoking an embedding adapter's forward call with the
weights parameter omitted equals invoking it with weights explicitly
`None`, and on a pyannote adapter both make the same weighted call to the
wrapped model. -/
theorem emb_call_default_weights (e : EmbeddingModel) (m : PyannoteModel)
    (w : Tensor) :
    e.callNoWeights w = e.call w Option.none ∧
    (EmbeddingModel.PyannoteEmbeddingModel m).callNoWeights w =
      Except.mapError ModelError.Inference (m.forwardWeighted w Option.none) :=
  ⟨rfl, rfl⟩

/-- Claim C10: an adapter successfully returned by
`SegmentationModel.from_pyannote` overrides all three capabilities, so
none of them can fail with `UnsupportedOperation`: the metadata getters
always succeed and the forward call only ever surfaces wrapped-model
errors. -/
theorem seg_adapter_no_unsupported_operation (hub : Hub) (id : String)
    (tok : UseAuthToken) (a : SegmentationModel) (w : Tensor)
    (h : SegmentationModel.from_pyannote hub id tok = Except.ok a) :
    a.get_sample_rate ≠ Except.error ModelError.UnsupportedOperation ∧
    a.get_duration ≠ Except.error ModelError.UnsupportedOperation ∧
    a.call w ≠ Except.error ModelError.UnsupportedOperation := by
  unfold SegmentationModel.from_pyannote at h
  rcases hp : hub.has_pyannote with _ | _ <;> rw [hp] at h <;> simp at h
  rcases hm : hub.get_model id tok with e | m <;> rw [hm] at h <;> simp at h
  subst h
  refine ⟨by simp [SegmentationModel.get_sample_rate], by
    simp [SegmentationModel.get_duration], ?_⟩
  show Except.mapError ModelError.Inference (m.forward w) ≠ _
  rcases m.forward w with e | t <;> simp [Except.mapError]

/-- Witness for C10 at the concrete environment `goodHub`. -/
theorem seg_adapter_no_unsupported_operation_witness :
    (SegmentationModel.PyannoteSegmentationModel okModel).get_sample_rate ≠
      Except.error ModelError.UnsupportedOperation ∧
    (SegmentationModel.PyannoteSegmentationModel okModel).get_duration ≠
      Except.error ModelError.UnsupportedOperation ∧
    (SegmentationModel.PyannoteSegmentationModel okModel).call tensor0 ≠
      Except.error ModelError.UnsupportedOperation :=
  seg_adapter_no_unsupported_operation goodHub "m" UseAuthToken.none
    (SegmentationModel.PyannoteSegmentationModel okModel) tensor0 rfl
